import Mathlib

/-!
Shallow embedding of the EasyTunnel relay (server/src/index.ts) and agent
(client/src/index.ts): a relay that forwards public HTTP requests over a single
socket.io control connection to one attached tunnel client, plus the client's
reconnect/heartbeat machinery and JWT authentication.
-/

namespace EasyTunnel

/-- Bodies carried in requests/responses.  The code passes bodies through as
opaque JavaScript values; error paths build `\x7b error: message \x7d` JSON
objects, modelled by the `jsonError` constructor. -/
inductive Body where
  | value (s : String)
  | jsonError (message : String)
deriving DecidableEq, Repr

/-- `TunnelRequest` from `types.ts`: method, path, headers, optional body. -/
structure TunnelRequest where
  method : String
  path : String
  headers : List (String × String)
  body : Option Body
deriving DecidableEq, Repr

/-- `TunnelResponse` from `types.ts`: statusCode, headers, body. -/
structure TunnelResponse where
  statusCode : Nat
  headers : List (String × String)
  body : Body
deriving DecidableEq, Repr

namespace Relay

/-- `ClientConnection` from `server/src/types.ts`; the socket is modelled by its
numeric id (socket.io ids are unique per connection and never reused). -/
structure ClientConnection where
  socketId : Nat
  authenticated : Bool
  lastHeartbeat : Nat
deriving DecidableEq, Repr

/-- Outcome recorded for a public request whose handler promise has settled:
either the agent's response arrived (promise resolved) or the 30s timer fired
(promise rejected, caught as a 500). -/
inductive RelayResult where
  | ok (resp : TunnelResponse)
  | timedOut
deriving DecidableEq, Repr

/-- One in-flight public request: the socket.io acknowledgement id used as
correlation id, the forwarded request, the instant its `setTimeout` fires, and
the promise's settlement (`none` while still pending). -/
structure PendingEntry where
  reqId : Nat
  request : TunnelRequest
  deadline : Nat
  resolution : Option RelayResult
deriving DecidableEq, Repr

/-- Relay-side state: the `activeClient` singleton, the set of transport-level
connected sockets, the set of sockets whose event handlers were registered
(only accepted connections reach the handler-registration code), the in-flight
public requests, the clock, and the next fresh acknowledgement id. -/
structure RelayState where
  activeClient : Option ClientConnection
  connected : List Nat
  handlers : List Nat
  pending : List PendingEntry
  now : Nat
  nextReqId : Nat
deriving DecidableEq, Repr

/-- The hard-coded per-request timeout of the relay: `setTimeout(..., 30000)`. -/
def REQUEST_TIMEOUT_MS : Nat := 30000

/-- `res.status(503).json(\x7b error: 'Tunnel client not connected' \x7d)`. -/
def noSessionResponse : TunnelResponse :=
  ⟨503, [], Body.jsonError "Tunnel client not connected"⟩

/-- `res.status(500).json(\x7b error: 'Failed to process request' \x7d)`,
sent when the response promise rejected (timeout). -/
def failedResponse : TunnelResponse :=
  ⟨500, [], Body.jsonError "Failed to process request"⟩

/-- What the public caller receives when a pending request settles:
a delivered agent response is relayed verbatim (headers copied one by one,
then `res.status(...).send(body)`); a timeout surfaces as `failedResponse`. -/
def callerResponse : RelayResult → TunnelResponse
  | RelayResult.ok resp => resp
  | RelayResult.timedOut => failedResponse

/-- Events driving the relay state machine. -/
inductive Event where
  | connection (sid : Nat)
  | heartbeat (sid : Nat)
  | disconnect (sid : Nat)
  | publicRequest (req : TunnelRequest)
  | ack (rid : Nat) (resp : TunnelResponse)
  | timerFire (rid : Nat)
  | tick (d : Nat)
deriving DecidableEq, Repr

/-- Observable outputs of one relay step. -/
inductive Output where
  | respondNow (resp : TunnelResponse)
  | respond (rid : Nat) (resp : TunnelResponse)
  | rejectAgent (sid : Nat) (message : String)
deriving DecidableEq, Repr

/-- Body of `socket.on('heartbeat')`: `if (activeClient) activeClient.lastHeartbeat = Date.now()`.
Note the handler does not compare the heartbeat's socket to the active one. -/
def heartbeatHandler (st : RelayState) : RelayState :=
  match st.activeClient with
  | some c => { st with activeClient := some { c with lastHeartbeat := st.now } }
  | none => st

/-- Body of `socket.on('disconnect')`: clear `activeClient` only when the
disconnecting socket is the recorded one. -/
def disconnectHandler (sid : Nat) (st : RelayState) : RelayState :=
  match st.activeClient with
  | some c => if c.socketId = sid then { st with activeClient := none } else st
  | none => st

/-- Marks the pending entry `rid` as resolved with the agent's response, as the
acknowledgement callback does (`clearTimeout(timeout); resolve(response)`); a
promise that already settled is left untouched. -/
def ackEntry (rid : Nat) (resp : TunnelResponse) (e : PendingEntry) : PendingEntry :=
  if e.reqId = rid ∧ e.resolution = none then
    { e with resolution := some (RelayResult.ok resp) }
  else e

/-- Marks the pending entry `rid` as timed out when its `setTimeout` fires: the
timer only exists while the promise is unsettled (a response clears it), and it
fires no earlier than the recorded deadline. -/
def timeoutEntry (now rid : Nat) (e : PendingEntry) : PendingEntry :=
  if e.reqId = rid ∧ e.resolution = none ∧ e.deadline ≤ now then
    { e with resolution := some RelayResult.timedOut }
  else e

/-- One step of the relay under an event, returning the new state and the
observable outputs, translated handler by handler from `server/src/index.ts`:

* `connection`: the `io.on('connection')` body.  A fresh authenticated socket
  is rejected outright when `activeClient` is set (`socket.emit('error', ...)`
  then `socket.disconnect()`, before any handler is registered), otherwise it
  becomes the active client and its handlers are registered.
* `heartbeat`/`disconnect`: delivered only for sockets that are connected and
  had handlers registered, then run the corresponding handler body.
* `publicRequest`: the `app.all('*')` handler: immediate 503 when no client is
  attached, otherwise a new pending entry with deadline `now + 30000`.
* `ack`: the acknowledgement callback for correlation id `rid`.
* `timerFire`: the 30-second `setTimeout` of entry `rid` fires.
* `tick`: time passes. -/
def relayStep (st : RelayState) (ev : Event) : RelayState × List Output :=
  match ev with
  | Event.connection sid =>
    if sid ∈ st.connected ∨ sid ∈ st.handlers then (st, [])
    else
      match st.activeClient with
      | some _ => (st, [Output.rejectAgent sid "Another client is already connected"])
      | none =>
        ({ st with
            activeClient := some ⟨sid, true, st.now⟩
            connected := sid :: st.connected
            handlers := sid :: st.handlers }, [])
  | Event.heartbeat sid =>
    if sid ∈ st.connected ∧ sid ∈ st.handlers then (heartbeatHandler st, []) else (st, [])
  | Event.disconnect sid =>
    if sid ∈ st.connected then
      let st1 := { st with connected := st.connected.filter (fun x => x ≠ sid) }
      if sid ∈ st.handlers then (disconnectHandler sid st1, []) else (st1, [])
    else (st, [])
  | Event.publicRequest req =>
    match st.activeClient with
    | none => (st, [Output.respondNow noSessionResponse])
    | some _ =>
      ({ st with
          pending := st.pending ++ [⟨st.nextReqId, req, st.now + REQUEST_TIMEOUT_MS, none⟩]
          nextReqId := st.nextReqId + 1 }, [])
  | Event.ack rid resp =>
    if st.pending.any (fun e => e.reqId == rid && e.resolution.isNone) then
      ({ st with pending := st.pending.map (ackEntry rid resp) },
        [Output.respond rid (callerResponse (RelayResult.ok resp))])
    else (st, [])
  | Event.timerFire rid =>
    if st.pending.any (fun e => e.reqId == rid && e.resolution.isNone && decide (e.deadline ≤ st.now)) then
      ({ st with pending := st.pending.map (timeoutEntry st.now rid) },
        [Output.respond rid (callerResponse RelayResult.timedOut)])
    else (st, [])
  | Event.tick d => ({ st with now := st.now + d }, [])

/-- Initial relay state: no client, nothing pending. -/
def initRelay : RelayState := ⟨none, [], [], [], 0, 0⟩

/-- Runs a trace of events, keeping only the final state. -/
def run (st : RelayState) (evs : List Event) : RelayState :=
  evs.foldl (fun s e => (relayStep s e).1) st

/-- Relay states reachable from the initial state. -/
inductive Reachable : RelayState → Prop where
  | init : Reachable initRelay
  | next (st : RelayState) (ev : Event) : Reachable st → Reachable (relayStep st ev).1

/-- Consistency between the socket bookkeeping and the active client: a socket
that is both connected and has registered handlers is exactly the active
client's socket, and the active client's socket is connected with handlers. -/
def Inv (st : RelayState) : Prop :=
  (∀ sid, sid ∈ st.handlers → sid ∈ st.connected →
      ∃ c, st.activeClient = some c ∧ c.socketId = sid) ∧
  (∀ c, st.activeClient = some c → c.socketId ∈ st.handlers ∧ c.socketId ∈ st.connected)

end Relay

namespace Client

/-- Outcome of the axios call against the local service in
`handleTunnelRequest` (client/src/index.ts lines 123–162): any HTTP status is a
success (`validateStatus: () => true`), a connection-refused error is
recognized specially, every other fault carries its message. -/
inductive LocalResult where
  | ok (status : Nat) (headers : List (String × String)) (data : Body)
  | connRefused
  | failure (message : String)
deriving DecidableEq, Repr

/-- `handleTunnelRequest`: forward the request to the local service; on success
return its status/headers/body unchanged; on `ECONNREFUSED` throw
`'Local service is not running'`; rethrow anything else. -/
def handleTunnelRequest (svc : TunnelRequest → LocalResult) (req : TunnelRequest) :
    Except String TunnelResponse :=
  match svc req with
  | LocalResult.ok s h d => Except.ok ⟨s, h, d⟩
  | LocalResult.connRefused => Except.error "Local service is not running"
  | LocalResult.failure msg => Except.error msg

/-- The `socket.on('tunnel_request')` listener: the list of acknowledgement
callback invocations it performs for one request — the local service's
response on success, a synthesized 500 with the error message otherwise. -/
def onTunnelRequest (svc : TunnelRequest → LocalResult) (req : TunnelRequest) :
    List TunnelResponse :=
  match handleTunnelRequest svc req with
  | Except.ok resp => [resp]
  | Except.error msg => [⟨500, [], Body.jsonError msg⟩]

/-- Agent-side connection state. -/
inductive ConnState where
  | disconnected
  | connecting
  | connected
deriving DecidableEq, Repr

/-- Agent-side controller state: `this.reconnectTimeout` (the stored timer
handle, possibly stale after the timer fired), the set of reconnect timers
currently armed with the runtime, a fresh-timer counter, and whether the
heartbeat interval is running. -/
structure AgentState where
  connState : ConnState
  reconnectField : Option Nat
  armedTimers : List Nat
  nextTimer : Nat
  heartbeatOn : Bool
deriving DecidableEq, Repr

/-- `scheduleReconnect()`: clear the stored timer handle if set, then arm a
fresh timer and store its handle. -/
def scheduleReconnect (st : AgentState) : AgentState :=
  let cleared :=
    match st.reconnectField with
    | some t => { st with armedTimers := st.armedTimers.filter (fun x => x ≠ t) }
    | none => st
  { cleared with
      reconnectField := some cleared.nextTimer
      armedTimers := cleared.nextTimer :: cleared.armedTimers
      nextTimer := cleared.nextTimer + 1 }

/-- Events hitting the agent's connection controller.  `connectFail` is a
handshake failure (socket.io `connect_error`): the client registers no handler
for it, so only the transport-level fact that the socket is not connected
changes. -/
inductive AgentEvent where
  | connectOk
  | connectFail
  | disconnectEvt
  | timerFire (t : Nat)
deriving DecidableEq, Repr

/-- One step of the agent controller, from `setupSocketListeners` and
`scheduleReconnect` (client/src/index.ts lines 64–89 and 189–207):

* `connectOk`: the `'connect'` handler clears any stored reconnect timer.
* `connectFail`: handshake failure; no handler exists, nothing is scheduled.
* `disconnectEvt`: the `'disconnect'` handler stops the heartbeat and calls
  `scheduleReconnect()`.
* `timerFire t`: an armed timer fires and calls `connect()`, which returns at
  once when already connected and otherwise starts a connection attempt and
  the heartbeat; the fired handle is left in `reconnectField` (the callback
  never nulls it). -/
def agentStep (st : AgentState) (ev : AgentEvent) : AgentState :=
  match ev with
  | AgentEvent.connectOk =>
    let cleared :=
      match st.reconnectField with
      | some t => { st with armedTimers := st.armedTimers.filter (fun x => x ≠ t) }
      | none => st
    { cleared with connState := ConnState.connected, reconnectField := none }
  | AgentEvent.connectFail => { st with connState := ConnState.disconnected }
  | AgentEvent.disconnectEvt =>
    scheduleReconnect { st with connState := ConnState.disconnected, heartbeatOn := false }
  | AgentEvent.timerFire t =>
    if t ∈ st.armedTimers then
      let st1 := { st with armedTimers := st.armedTimers.filter (fun x => x ≠ t) }
      if st1.connState = ConnState.connected then st1
      else { st1 with connState := ConnState.connecting, heartbeatOn := true }
    else st

/-- Agent state right after `start()` has called `connect()` for the first
time: a connection attempt in flight, no reconnect timer. -/
def initAgent : AgentState := ⟨ConnState.connecting, none, [], 0, true⟩

/-- Runs a trace of agent events. -/
def runAgent (st : AgentState) (evs : List AgentEvent) : AgentState :=
  evs.foldl agentStep st

/-- Agent states reachable from startup. -/
inductive AgentReachable : AgentState → Prop where
  | init : AgentReachable initAgent
  | next (st : AgentState) (ev : AgentEvent) :
      AgentReachable st → AgentReachable (agentStep st ev)

/-- Timer bookkeeping invariant: no timer is armed, or exactly one is armed
and it is the one stored in `reconnectField`. -/
def AgentInv (st : AgentState) : Prop :=
  st.armedTimers = [] ∨ ∃ t, st.armedTimers = [t] ∧ st.reconnectField = some t

end Client

namespace Auth

/-- The payload the relay expects inside a bearer token (`JWTPayload`). -/
structure JWTPayload where
  clientId : String
  type : String
deriving DecidableEq, Repr

/-- A bearer token as the `jsonwebtoken` collaborator exposes it to this code:
the payload it carries, the secret it was signed with, and whether its
expiry has passed at verification time. -/
structure Token where
  payload : JWTPayload
  signedWith : String
  expired : Bool
deriving DecidableEq, Repr

/-- `jwt.verify(token, secret)`: succeeds exactly when the signature matches
(the token was signed with the given secret) and the token is unexpired. -/
def verify (t : Token) (secret : String) : Option JWTPayload :=
  if t.signedWith = secret ∧ t.expired = false then some t.payload else none

/-- `process.env.JWT_SECRET || 'default-secret'` (an empty variable is falsy
in JavaScript and also falls back). -/
def secretOrDefault (envSecret : Option String) : String :=
  match envSecret with
  | some s => if s = "" then "default-secret" else s
  | none => "default-secret"

/-- Result of the socket.io authentication middleware. -/
inductive AuthResult where
  | accepted (clientId : String)
  | rejected (message : String)
deriving DecidableEq, Repr

/-- The `io.use` middleware (server lines 32–66): missing token is rejected;
the token is verified against the configured or fallback secret; a decoded
payload with a falsy `clientId` (empty string) or a `type` other than
`'tunnel-client'` is rejected; otherwise the connection is authenticated. -/
def authMiddleware (envSecret : Option String) (token : Option Token) : AuthResult :=
  match token with
  | none => AuthResult.rejected "Authentication token required"
  | some t =>
    match verify t (secretOrDefault envSecret) with
    | some decoded =>
      if decoded.clientId = "" ∨ decoded.type ≠ "tunnel-client" then
        AuthResult.rejected "Invalid token payload"
      else AuthResult.accepted decoded.clientId
    | none => AuthResult.rejected "Invalid token"

/-- `generateToken.ts`: signs a payload with a fresh client id and
`type: 'tunnel-client'` using the same `JWT_SECRET || 'default-secret'`
fallback; `expired` says whether its 30-day validity has elapsed. -/
def generateToken (envSecret : Option String) (clientId : String) (expired : Bool) : Token :=
  ⟨⟨clientId, "tunnel-client"⟩, secretOrDefault envSecret, expired⟩

end Auth

/-- The relay's construction of the wire request from the inbound HTTP tuple
(server lines 128–133): the tuple is copied field by field. -/
def buildTunnelRequest (method path : String) (headers : List (String × String))
    (body : Option Body) : TunnelRequest :=
  ⟨method, path, headers, body⟩

/-- The fault-free data path of one tunnelled request: the relay builds the
wire request, the agent executes it against the local service and acknowledges,
and the relay relays each acknowledged response to the public caller
(`res.status(...).send(...)` after copying headers). -/
def roundTrip (svc : TunnelRequest → Client.LocalResult) (method path : String)
    (headers : List (String × String)) (body : Option Body) : List TunnelResponse :=
  (Client.onTunnelRequest svc (buildTunnelRequest method path headers body)).map
    (fun r => Relay.callerResponse (Relay.RelayResult.ok r))

namespace Relay

/-- Sample public request used in concrete scenarios. -/
def reqA : TunnelRequest := ⟨"GET", "/status", [], none⟩

/-- A second sample public request. -/
def reqB : TunnelRequest := ⟨"POST", "/update", [], some (Body.value "payload")⟩

/-- A sample agent response. -/
def sampleResp : TunnelResponse := ⟨200, [("content-type", "text/plain")], Body.value "ok"⟩

/-- A sample still-pending entry. -/
def pendingSample : PendingEntry := ⟨0, reqA, 30000, none⟩

/-- A state with agent socket 1 attached and one in-flight request. -/
def attachedState : RelayState := ⟨some ⟨1, true, 0⟩, [1], [1], [pendingSample], 5, 1⟩

/-- Agent attaches, two public requests arrive, then the agent disconnects. -/
def c2State : RelayState :=
  run initRelay
    [Event.connection 1, Event.publicRequest reqA, Event.publicRequest reqB, Event.disconnect 1]

/-- Agent attaches, one request arrives, then 30 seconds pass. -/
def c3State : RelayState :=
  run initRelay [Event.connection 1, Event.publicRequest reqA, Event.tick 30000]

/-- The entry created for `reqA` in `c3State`. -/
def c3Entry : PendingEntry := ⟨0, reqA, 30000, none⟩

/-- Agent socket 1 attaches, then 7 time units pass. -/
def c4State : RelayState := run initRelay [Event.connection 1, Event.tick 7]

/-- Agent attaches, one request arrives, then the agent disconnects. -/
def c5State : RelayState :=
  run initRelay [Event.connection 1, Event.publicRequest reqA, Event.disconnect 1]

/-- Agent attaches, one request arrives, and the agent acknowledges it. -/
def c5AckedState : RelayState :=
  run initRelay [Event.connection 1, Event.publicRequest reqA, Event.ack 0 sampleResp]

end Relay

namespace Client

/-- A local service that always replies `200` with fixed headers and body. -/
def svcOk : TunnelRequest → LocalResult :=
  fun _ => LocalResult.ok 200 [("content-type", "application/json")] (Body.value "ok:true")

/-- A local service that is not running (connection refused). -/
def svcRefused : TunnelRequest → LocalResult :=
  fun _ => LocalResult.connRefused

/-- Connection established, then lost (timer 0 armed), the timer fires and the
new handshake fails. -/
def c9State : AgentState :=
  runAgent initAgent
    [AgentEvent.connectOk, AgentEvent.disconnectEvt, AgentEvent.timerFire 0,
      AgentEvent.connectFail]

end Client

namespace Auth

/-- A well-formed, unexpired tunnel-client token signed with the fallback
secret. -/
def sampleToken : Token := ⟨⟨"client-abc", "tunnel-client"⟩, "default-secret", false⟩

end Auth

end EasyTunnel

namespace EasyTunnel
namespace Relay

theorem heartbeatHandler_active (st : RelayState) (c : ClientConnection)
    (hac : st.activeClient = some c) :
    heartbeatHandler st = { st with activeClient := some { c with lastHeartbeat := st.now } } := by
  simp [heartbeatHandler, hac]

theorem heartbeatHandler_idle (st : RelayState) (hac : st.activeClient = none) :
    heartbeatHandler st = st := by
  simp [heartbeatHandler, hac]

theorem disconnectHandler_match (sid : Nat) (st : RelayState) (c : ClientConnection)
    (hac : st.activeClient = some c) (hcs : c.socketId = sid) :
    disconnectHandler sid st = { st with activeClient := none } := by
  simp [disconnectHandler, hac, hcs]

theorem disconnectHandler_other (sid : Nat) (st : RelayState) (c : ClientConnection)
    (hac : st.activeClient = some c) (hcs : c.socketId ≠ sid) :
    disconnectHandler sid st = st := by
  simp [disconnectHandler, hac, hcs]

theorem disconnectHandler_none (sid : Nat) (st : RelayState) (hac : st.activeClient = none) :
    disconnectHandler sid st = st := by
  simp [disconnectHandler, hac]

theorem step_conn_stale (st : RelayState) (sid : Nat)
    (h : sid ∈ st.connected ∨ sid ∈ st.handlers) :
    relayStep st (Event.connection sid) = (st, []) := by
  simp [relayStep, h]

theorem step_conn_rejected (st : RelayState) (sid : Nat)
    (hc : sid ∉ st.connected) (hh : sid ∉ st.handlers)
    (c : ClientConnection) (hac : st.activeClient = some c) :
    relayStep st (Event.connection sid)
      = (st, [Output.rejectAgent sid "Another client is already connected"]) := by
  simp [relayStep, hc, hh, hac]

theorem step_conn_accepted (st : RelayState) (sid : Nat)
    (hc : sid ∉ st.connected) (hh : sid ∉ st.handlers)
    (hac : st.activeClient = none) :
    relayStep st (Event.connection sid)
      = ({ st with
            activeClient := some ⟨sid, true, st.now⟩
            connected := sid :: st.connected
            handlers := sid :: st.handlers }, []) := by
  simp [relayStep, hc, hh, hac]

theorem step_heartbeat_delivered (st : RelayState) (sid : Nat)
    (h : sid ∈ st.connected ∧ sid ∈ st.handlers) :
    relayStep st (Event.heartbeat sid) = (heartbeatHandler st, []) := by
  simp [relayStep, h]

theorem step_heartbeat_undelivered (st : RelayState) (sid : Nat)
    (h : ¬(sid ∈ st.connected ∧ sid ∈ st.handlers)) :
    relayStep st (Event.heartbeat sid) = (st, []) := by
  simp only [relayStep, if_neg h]

theorem step_disc_unknown (st : RelayState) (sid : Nat) (h : sid ∉ st.connected) :
    relayStep st (Event.disconnect sid) = (st, []) := by
  simp [relayStep, h]

theorem step_disc_active_match (st : RelayState) (sid : Nat) (c : ClientConnection)
    (hc : sid ∈ st.connected) (hh : sid ∈ st.handlers)
    (hac : st.activeClient = some c) (hcs : c.socketId = sid) :
    relayStep st (Event.disconnect sid)
      = ({ st with
            activeClient := none
            connected := st.connected.filter (fun x => x ≠ sid) }, []) := by
  simp [relayStep, hc, hh, disconnectHandler, hac, hcs]

theorem step_disc_active_other (st : RelayState) (sid : Nat) (c : ClientConnection)
    (hc : sid ∈ st.connected) (hh : sid ∈ st.handlers)
    (hac : st.activeClient = some c) (hcs : c.socketId ≠ sid) :
    relayStep st (Event.disconnect sid)
      = ({ st with connected := st.connected.filter (fun x => x ≠ sid) }, []) := by
  simp [relayStep, hc, hh, disconnectHandler, hac, hcs]

theorem step_disc_idle (st : RelayState) (sid : Nat)
    (hc : sid ∈ st.connected) (hh : sid ∈ st.handlers)
    (hac : st.activeClient = none) :
    relayStep st (Event.disconnect sid)
      = ({ st with connected := st.connected.filter (fun x => x ≠ sid) }, []) := by
  simp [relayStep, hc, hh, disconnectHandler, hac]

theorem step_disc_unhandled (st : RelayState) (sid : Nat)
    (hc : sid ∈ st.connected) (hh : sid ∉ st.handlers) :
    relayStep st (Event.disconnect sid)
      = ({ st with connected := st.connected.filter (fun x => x ≠ sid) }, []) := by
  simp [relayStep, hc, hh]

theorem step_request_nosession (st : RelayState) (req : TunnelRequest)
    (hac : st.activeClient = none) :
    relayStep st (Event.publicRequest req) = (st, [Output.respondNow noSessionResponse]) := by
  simp [relayStep, hac]

theorem step_request_attached (st : RelayState) (req : TunnelRequest)
    (c : ClientConnection) (hac : st.activeClient = some c) :
    relayStep st (Event.publicRequest req)
      = ({ st with
            pending := st.pending ++ [⟨st.nextReqId, req, st.now + REQUEST_TIMEOUT_MS, none⟩]
            nextReqId := st.nextReqId + 1 }, []) := by
  simp [relayStep, hac]

theorem step_ack_hit (st : RelayState) (rid : Nat) (resp : TunnelResponse)
    (h : st.pending.any (fun e => e.reqId == rid && e.resolution.isNone)) :
    relayStep st (Event.ack rid resp)
      = ({ st with pending := st.pending.map (ackEntry rid resp) },
          [Output.respond rid resp]) := by
  simp [relayStep, h, callerResponse]

theorem step_ack_miss (st : RelayState) (rid : Nat) (resp : TunnelResponse)
    (h : ¬st.pending.any (fun e => e.reqId == rid && e.resolution.isNone)) :
    relayStep st (Event.ack rid resp) = (st, []) := by
  simp only [relayStep, if_neg h]

theorem step_timer_hit (st : RelayState) (rid : Nat)
    (h : st.pending.any
        (fun e => e.reqId == rid && e.resolution.isNone && decide (e.deadline ≤ st.now))) :
    relayStep st (Event.timerFire rid)
      = ({ st with pending := st.pending.map (timeoutEntry st.now rid) },
          [Output.respond rid failedResponse]) := by
  simp [relayStep, h, callerResponse]

theorem step_timer_miss (st : RelayState) (rid : Nat)
    (h : ¬st.pending.any
        (fun e => e.reqId == rid && e.resolution.isNone && decide (e.deadline ≤ st.now))) :
    relayStep st (Event.timerFire rid) = (st, []) := by
  simp only [relayStep, if_neg h]

theorem inv_init : Inv initRelay := by
  constructor
  · intro sid h
    simp [initRelay] at h
  · intro c h
    simp [initRelay] at h

theorem inv_step (st : RelayState) (ev : Event) (h : Inv st) : Inv (relayStep st ev).1 := by
  obtain ⟨h1, h2⟩ := h
  cases ev with
  | connection sid =>
    by_cases hfresh : sid ∈ st.connected ∨ sid ∈ st.handlers
    · rw [step_conn_stale st sid hfresh]
      exact ⟨h1, h2⟩
    · push_neg at hfresh
      obtain ⟨hnc, hnh⟩ := hfresh
      cases hac : st.activeClient with
      | some c =>
        rw [step_conn_rejected st sid hnc hnh c hac]
        exact ⟨h1, h2⟩
      | none =>
        rw [step_conn_accepted st sid hnc hnh hac]
        constructor
        · intro s hs hcon
          simp only [List.mem_cons] at hs hcon
          rcases hs with rfl | hs
          · exact ⟨_, rfl, rfl⟩
          · rcases hcon with rfl | hcon
            · exact ⟨_, rfl, rfl⟩
            · obtain ⟨c, hcc, _⟩ := h1 s hs hcon
              rw [hac] at hcc
              exact absurd hcc (by simp)
        · intro c hcon
          simp only [Option.some_inj] at hcon
          subst hcon
          simp
  | heartbeat sid =>
    by_cases hg : sid ∈ st.connected ∧ sid ∈ st.handlers
    · rw [step_heartbeat_delivered st sid hg]
      cases hac : st.activeClient with
      | some c =>
        rw [heartbeatHandler_active st c hac]
        constructor
        · intro s hs hcon
          obtain ⟨c', hcc, hss⟩ := h1 s hs hcon
          rw [hac] at hcc
          simp only [Option.some_inj] at hcc
          subst hcc
          exact ⟨{ c with lastHeartbeat := st.now }, rfl, hss⟩
        · intro c' hc'
          simp only [Option.some_inj] at hc'
          subst hc'
          simpa using h2 c hac
      | none =>
        rw [heartbeatHandler_idle st hac]
        exact ⟨h1, h2⟩
    · rw [step_heartbeat_undelivered st sid hg]
      exact ⟨h1, h2⟩
  | disconnect sid =>
    by_cases hc : sid ∈ st.connected
    · by_cases hh : sid ∈ st.handlers
      · cases hac : st.activeClient with
        | some c =>
          by_cases hcs : c.socketId = sid
          · rw [step_disc_active_match st sid c hc hh hac hcs]
            constructor
            · intro s hs hcon
              simp only [List.mem_filter, decide_eq_true_eq] at hcon
              obtain ⟨c', hcc, hss⟩ := h1 s hs hcon.1
              rw [hac] at hcc
              simp only [Option.some_inj] at hcc
              subst hcc
              exact absurd (hss ▸ hcs) hcon.2
            · intro c' hc'
              simp at hc'
          · rw [step_disc_active_other st sid c hc hh hac hcs]
            constructor
            · intro s hs hcon
              simp only [List.mem_filter, decide_eq_true_eq] at hcon
              exact h1 s hs hcon.1
            · intro c' hc'
              have hcc : some c = some c' := by
                rw [← hac]
                exact hc'
              simp only [Option.some_inj] at hcc
              subst hcc
              obtain ⟨hh2, hc2⟩ := h2 c hac
              refine ⟨hh2, ?_⟩
              simp only [List.mem_filter, decide_eq_true_eq]
              exact ⟨hc2, hcs⟩
        | none =>
          rw [step_disc_idle st sid hc hh hac]
          constructor
          · intro s hs hcon
            simp only [List.mem_filter, decide_eq_true_eq] at hcon
            exact h1 s hs hcon.1
          · intro c' hc'
            simp [hac] at hc'
      · rw [step_disc_unhandled st sid hc hh]
        constructor
        · intro s hs hcon
          simp only [List.mem_filter, decide_eq_true_eq] at hcon
          exact h1 s hs hcon.1
        · intro c' hc'
          obtain ⟨hh2, hc2⟩ := h2 c' hc'
          refine ⟨hh2, ?_⟩
          simp only [List.mem_filter, decide_eq_true_eq]
          exact ⟨hc2, fun heq => hh (heq ▸ hh2)⟩
    · rw [step_disc_unknown st sid hc]
      exact ⟨h1, h2⟩
  | publicRequest req =>
    cases hac : st.activeClient with
    | none =>
      rw [step_request_nosession st req hac]
      exact ⟨h1, h2⟩
    | some c =>
      rw [step_request_attached st req c hac]
      exact ⟨fun s hs hcon => h1 s hs hcon, fun c' hc' => h2 c' hc'⟩
  | ack rid resp =>
    by_cases hg : st.pending.any (fun e => e.reqId == rid && e.resolution.isNone)
    · rw [step_ack_hit st rid resp hg]
      exact ⟨fun s hs hcon => h1 s hs hcon, fun c' hc' => h2 c' hc'⟩
    · rw [step_ack_miss st rid resp hg]
      exact ⟨h1, h2⟩
  | timerFire rid =>
    by_cases hg : st.pending.any
        (fun e => e.reqId == rid && e.resolution.isNone && decide (e.deadline ≤ st.now))
    · rw [step_timer_hit st rid hg]
      exact ⟨fun s hs hcon => h1 s hs hcon, fun c' hc' => h2 c' hc'⟩
    · rw [step_timer_miss st rid hg]
      exact ⟨h1, h2⟩
  | tick d =>
    show Inv ({ st with now := st.now + d })
    exact ⟨fun s hs hcon => h1 s hs hcon, fun c' hc' => h2 c' hc'⟩

theorem inv_reachable (st : RelayState) (h : Reachable st) : Inv st := by
  induction h with
  | init => exact inv_init
  | next st ev _ ih => exact inv_step st ev ih

end Relay

namespace Client

theorem scheduleReconnect_armed (st : AgentState) (hInv : AgentInv st) :
    scheduleReconnect st
      = { st with
            reconnectField := some st.nextTimer
            armedTimers := [st.nextTimer]
            nextTimer := st.nextTimer + 1 } := by
  rcases hInv with h | ⟨t, ht, hf⟩
  · unfold scheduleReconnect
    cases hrf : st.reconnectField with
    | some t => simp [h, hrf]
    | none => simp [h, hrf]
  · unfold scheduleReconnect
    rw [hf]
    simp [ht]

theorem agent_connectOk_clears (st : AgentState) (hInv : AgentInv st) :
    agentStep st AgentEvent.connectOk
      = { st with
            connState := ConnState.connected
            reconnectField := none
            armedTimers := [] } := by
  rcases hInv with h | ⟨t, ht, hf⟩
  · unfold agentStep
    cases hrf : st.reconnectField with
    | some t => simp [h, hrf]
    | none => simp [h, hrf]
  · unfold agentStep
    rw [hf]
    simp [ht]

theorem agentInv_init : AgentInv initAgent := Or.inl rfl

theorem agentInv_step (st : AgentState) (ev : AgentEvent) (h : AgentInv st) :
    AgentInv (agentStep st ev) := by
  cases ev with
  | connectOk =>
    rw [agent_connectOk_clears st h]
    exact Or.inl rfl
  | connectFail =>
    show AgentInv { st with connState := ConnState.disconnected }
    rcases h with h | ⟨t, ht, hf⟩
    · exact Or.inl h
    · exact Or.inr ⟨t, ht, hf⟩
  | disconnectEvt =>
    show AgentInv
      (scheduleReconnect { st with connState := ConnState.disconnected, heartbeatOn := false })
    have hInv1 :
        AgentInv { st with connState := ConnState.disconnected, heartbeatOn := false } := by
      rcases h with h | ⟨t, ht, hf⟩
      · exact Or.inl h
      · exact Or.inr ⟨t, ht, hf⟩
    rw [scheduleReconnect_armed _ hInv1]
    exact Or.inr ⟨st.nextTimer, rfl, rfl⟩
  | timerFire t =>
    by_cases hmem : t ∈ st.armedTimers
    · rcases h with h | ⟨t0, ht, hf⟩
      · rw [h] at hmem
        exact absurd hmem (by simp)
      · unfold agentStep
        simp only [if_pos hmem]
        have harm : st.armedTimers.filter (fun x => x ≠ t) = [] := by
          rw [ht] at hmem
          simp only [List.mem_singleton] at hmem
          subst hmem
          rw [ht]
          simp
        split
        · exact Or.inl harm
        · exact Or.inl harm
    · unfold agentStep
      simp only [if_neg hmem]
      exact h

theorem agentInv_reachable (st : AgentState) (h : AgentReachable st) : AgentInv st := by
  induction h with
  | init => exact agentInv_init
  | next st ev _ ih => exact agentInv_step st ev ih

end Client

namespace Relay

/-- Claim C1: at most one agent session is attached at any time (the state
holds an `Option ClientConnection`); a fresh authenticated connect while a
session exists is rejected with the already-connected error and closed
immediately with the whole relay state — the existing session and all
in-flight requests — left untouched, while a connect with no session attaches
it. -/
theorem attach_exclusive (st : RelayState) (sid : Nat)
    (hc : sid ∉ st.connected) (hh : sid ∉ st.handlers) :
    (∀ c, st.activeClient = some c →
        relayStep st (Event.connection sid)
          = (st, [Output.rejectAgent sid "Another client is already connected"])) ∧
    (st.activeClient = none →
        relayStep st (Event.connection sid)
          = ({ st with
                activeClient := some ⟨sid, true, st.now⟩
                connected := sid :: st.connected
                handlers := sid :: st.handlers }, [])) :=
  ⟨fun c hac => step_conn_rejected st sid hc hh c hac,
    fun hac => step_conn_accepted st sid hc hh hac⟩

/-- Claim C1 witness: with socket 1 attached and one request in flight, a
connect attempt by socket 2 is rejected and changes nothing. -/
theorem attach_exclusive_witness :
    relayStep attachedState (Event.connection 2)
      = (attachedState, [Output.rejectAgent 2 "Another client is already connected"]) :=
  (attach_exclusive attachedState 2 (by decide) (by decide)).1 ⟨1, true, 0⟩ rfl

/-- Claim C2 counterexample: after the attached agent disconnects with two
requests in flight, the session is detached but both requests are still
unresolved — they were not failed promptly and the pending set is not empty,
contradicting the claim. -/
theorem disconnect_leaves_pending_unresolved :
    c2State.activeClient = none ∧
    c2State.pending.map (fun e => e.resolution) = [none, none] := by decide

/-- Claim C2 as amended: losing the control connection detaches the session,
but the disconnect handler leaves every pending request untouched and delivers
nothing to their callers; each such request resolves only later, when its own
30-second timer fires, as the generic 500 failure response. -/
theorem disconnect_detaches_without_failing_pending (st : RelayState) (sid : Nat)
    (c : ClientConnection) (hac : st.activeClient = some c) (hcs : c.socketId = sid)
    (hcon : sid ∈ st.connected) (hhan : sid ∈ st.handlers) :
    relayStep st (Event.disconnect sid)
      = ({ st with
            activeClient := none
            connected := st.connected.filter (fun x => x ≠ sid) }, []) ∧
    (∀ e, e ∈ st.pending → e.resolution = none → e.deadline ≤ st.now →
        relayStep (relayStep st (Event.disconnect sid)).1 (Event.timerFire e.reqId)
          = ({ (relayStep st (Event.disconnect sid)).1 with
                pending := st.pending.map (timeoutEntry st.now e.reqId) },
              [Output.respond e.reqId failedResponse])) := by
  have hstep := step_disc_active_match st sid c hcon hhan hac hcs
  refine ⟨hstep, ?_⟩
  intro e he hres hdl
  rw [hstep]
  apply step_timer_hit
  rw [List.any_eq_true]
  exact ⟨e, he, by simp [hres, hdl]⟩

/-- Claim C2 amended witness: with socket 1 attached and an in-flight request,
the disconnect of socket 1 detaches the session and keeps the pending entry. -/
theorem disconnect_detaches_without_failing_pending_witness :
    relayStep attachedState (Event.disconnect 1)
      = ({ attachedState with
            activeClient := none
            connected := attachedState.connected.filter (fun x => x ≠ 1) }, []) :=
  (disconnect_detaches_without_failing_pending attachedState 1 ⟨1, true, 0⟩
      rfl rfl (by decide) (by decide)).1

/-- Claim C3: a public request submitted while an agent is attached is
registered with deadline `now + 30000` (the relay's per-request timeout); when
that timer fires on a still-unresolved entry, the entry resolves as timed out
and the caller receives the 500 error response — the gateway-timeout
equivalent the relay surfaces — exactly at the timer's firing. -/
theorem timeout_surfaces_error_at_deadline (st : RelayState) (req : TunnelRequest)
    (rid : Nat) (e : PendingEntry) :
    (∀ c, st.activeClient = some c →
        (relayStep st (Event.publicRequest req)).1.pending
          = st.pending ++ [⟨st.nextReqId, req, st.now + REQUEST_TIMEOUT_MS, none⟩]) ∧
    (e ∈ st.pending → e.reqId = rid → e.resolution = none → e.deadline ≤ st.now →
        relayStep st (Event.timerFire rid)
          = ({ st with pending := st.pending.map (timeoutEntry st.now rid) },
              [Output.respond rid failedResponse]) ∧
        timeoutEntry st.now rid e = { e with resolution := some RelayResult.timedOut }) ∧
    failedResponse.statusCode = 500 ∧ REQUEST_TIMEOUT_MS = 30000 := by
  refine ⟨?_, ?_, rfl, rfl⟩
  · intro c hac
    rw [step_request_attached st req c hac]
  · intro he hid hres hdl
    constructor
    · apply step_timer_hit
      rw [List.any_eq_true]
      exact ⟨e, he, by simp [hid, hres, hdl]⟩
    · simp [timeoutEntry, hid, hres, hdl]

/-- Claim C3 witness: the request registered at time 0 times out at 30000 and
its caller is answered with the 500 failure response. -/
theorem timeout_surfaces_error_at_deadline_witness :
    relayStep c3State (Event.timerFire 0)
      = ({ c3State with pending := c3State.pending.map (timeoutEntry c3State.now 0) },
          [Output.respond 0 failedResponse]) :=
  ((timeout_surfaces_error_at_deadline c3State reqA 0 c3Entry).2.1
      (by decide) (by decide) (by decide) (by decide)).1

/-- Claim C4: in every reachable relay state, a heartbeat arriving on a
connection other than the attached session's one leaves the state completely
unchanged (such a socket is either no longer connected or never had handlers
registered), and a heartbeat from the attached session's own connection
updates exactly `lastHeartbeat` to the current time. -/
theorem stale_heartbeat_noop (st : RelayState) (h : Reachable st) (sid : Nat) :
    ((∀ c, st.activeClient = some c → c.socketId ≠ sid) →
        relayStep st (Event.heartbeat sid) = (st, [])) ∧
    (∀ c, st.activeClient = some c → c.socketId = sid →
        relayStep st (Event.heartbeat sid)
          = ({ st with activeClient := some { c with lastHeartbeat := st.now } }, [])) := by
  obtain ⟨h1, h2⟩ := inv_reachable st h
  constructor
  · intro hne
    apply step_heartbeat_undelivered
    rintro ⟨hcon, hhan⟩
    obtain ⟨c, hac, hsc⟩ := h1 sid hhan hcon
    exact hne c hac hsc
  · intro c hac hsc
    rw [step_heartbeat_delivered st sid ⟨hsc ▸ (h2 c hac).2, hsc ▸ (h2 c hac).1⟩]
    rw [heartbeatHandler_active st c hac]

theorem reachable_c4State : Reachable c4State :=
  Reachable.next _ (Event.tick 7) (Reachable.next _ (Event.connection 1) Reachable.init)

/-- Claim C4 witness: with socket 1 attached (at time 7), a heartbeat from the
stale handle 2 changes nothing, while a heartbeat from socket 1 itself sets
`lastHeartbeat` to 7. -/
theorem stale_heartbeat_noop_witness :
    relayStep c4State (Event.heartbeat 2) = (c4State, []) ∧
    relayStep c4State (Event.heartbeat 1)
      = ({ c4State with activeClient := some ⟨1, true, c4State.now⟩ }, []) := by
  constructor
  · refine (stale_heartbeat_noop c4State reachable_c4State 2).1 ?_
    intro c hac
    have hcc : some (⟨1, true, 0⟩ : ClientConnection) = some c := hac
    injection hcc with hcc
    subst hcc
    decide
  · exact (stale_heartbeat_noop c4State reachable_c4State 1).2 ⟨1, true, 0⟩ rfl rfl

/-- Claim C5 counterexample: session loss fires first (the agent disconnects
while a request is pending), yet the request does not resolve then — its
resolution slot is still empty after the disconnect, so a pending request is
not resolved by "response, timeout, or session loss, whichever fires first". -/
theorem session_loss_does_not_resolve :
    c5State.activeClient = none ∧
    c5State.pending.map (fun e => e.resolution) = [none] := by decide

/-- Claim C5 as amended: every pending request resolves at most once, by
matching response or by timeout, whichever fires first (session loss is not a
resolution trigger); once every entry carrying an id is resolved — or when no
entry carries it — a response or timer for that id is discarded with no state
change and no caller-visible output, while the first matching response
resolves the entry exactly once. -/
theorem pending_resolves_once_response_or_timeout (st : RelayState) (rid : Nat)
    (resp : TunnelResponse) :
    ((∀ e, e ∈ st.pending → e.reqId = rid → e.resolution.isSome) →
        relayStep st (Event.ack rid resp) = (st, []) ∧
        relayStep st (Event.timerFire rid) = (st, [])) ∧
    (∀ e, e ∈ st.pending → e.reqId = rid → e.resolution = none →
        relayStep st (Event.ack rid resp)
          = ({ st with pending := st.pending.map (ackEntry rid resp) },
              [Output.respond rid resp]) ∧
        ackEntry rid resp e = { e with resolution := some (RelayResult.ok resp) }) := by
  constructor
  · intro hres
    constructor
    · apply step_ack_miss
      intro hany
      rw [List.any_eq_true] at hany
      obtain ⟨e, he, hcond⟩ := hany
      simp only [Bool.and_eq_true, beq_iff_eq, Option.isNone_iff_eq_none] at hcond
      have hsome := hres e he hcond.1
      rw [hcond.2] at hsome
      simp at hsome
    · apply step_timer_miss
      intro hany
      rw [List.any_eq_true] at hany
      obtain ⟨e, he, hcond⟩ := hany
      simp only [Bool.and_eq_true, beq_iff_eq, Option.isNone_iff_eq_none,
        decide_eq_true_eq] at hcond
      have hsome := hres e he hcond.1.1
      rw [hcond.1.2] at hsome
      simp at hsome
  · intro e he hid hres
    constructor
    · apply step_ack_hit
      rw [List.any_eq_true]
      exact ⟨e, he, by simp [hid, hres]⟩
    · simp [ackEntry, hid, hres]

/-- Claim C5 amended witness: once the single pending request is resolved by
the agent's response, both a duplicate response and the late timer for the
same id are discarded without effect. -/
theorem pending_resolves_once_response_or_timeout_witness :
    relayStep c5AckedState (Event.ack 0 sampleResp) = (c5AckedState, []) ∧
    relayStep c5AckedState (Event.timerFire 0) = (c5AckedState, []) :=
  (pending_resolves_once_response_or_timeout c5AckedState 0 sampleResp).1 (by decide)

/-- Claim C7: a public request arriving while no agent session is attached is
answered immediately with the 503 service-unavailable response, and the relay
state is completely unchanged — no pending entry is registered and no timeout
is started. -/
theorem no_session_fast_fail (st : RelayState) (req : TunnelRequest)
    (hac : st.activeClient = none) :
    relayStep st (Event.publicRequest req) = (st, [Output.respondNow noSessionResponse]) ∧
    noSessionResponse.statusCode = 503 :=
  ⟨step_request_nosession st req hac, rfl⟩

/-- Claim C7 witness: `GET /status` against the initial (no-agent) relay. -/
theorem no_session_fast_fail_witness :
    relayStep initRelay (Event.publicRequest reqA)
      = (initRelay, [Output.respondNow noSessionResponse]) :=
  (no_session_fast_fail initRelay reqA rfl).1

end Relay

/-- Claim C6: with no faults, the tuple handed to the local service is exactly
the public request tuple, and the caller receives exactly the response tuple
the local service produced — status, headers and body unchanged through the
tunnel. -/
theorem roundTrip_preserves_response (svc : TunnelRequest → Client.LocalResult)
    (method path : String) (headers : List (String × String)) (body : Option Body)
    (status : Nat) (respHeaders : List (String × String)) (respBody : Body)
    (hsvc : svc (buildTunnelRequest method path headers body)
        = Client.LocalResult.ok status respHeaders respBody) :
    buildTunnelRequest method path headers body = ⟨method, path, headers, body⟩ ∧
    roundTrip svc method path headers body = [⟨status, respHeaders, respBody⟩] := by
  refine ⟨rfl, ?_⟩
  simp [roundTrip, Client.onTunnelRequest, Client.handleTunnelRequest, hsvc,
    Relay.callerResponse]

/-- Claim C6 witness: a service answering `200` with fixed headers and body is
relayed verbatim to the caller. -/
theorem roundTrip_preserves_response_witness :
    roundTrip Client.svcOk "GET" "/status" [] none
      = [⟨200, [("content-type", "application/json")], Body.value "ok:true"⟩] :=
  (roundTrip_preserves_response Client.svcOk "GET" "/status" [] none 200
      [("content-type", "application/json")] (Body.value "ok:true") rfl).2

namespace Client

/-- Claim C8: for every dispatched request the agent invokes the
acknowledgement callback exactly once: with the local service's own response
on success, with a synthesized 500 carrying the fixed diagnostic when the
service is unreachable, and with a synthesized 500 carrying the fault's
message on any other failure — the relay always gets an answer. -/
theorem agent_always_answers_once (svc : TunnelRequest → LocalResult)
    (req : TunnelRequest) :
    (onTunnelRequest svc req).length = 1 ∧
    (∀ s hdrs d, svc req = LocalResult.ok s hdrs d →
        onTunnelRequest svc req = [⟨s, hdrs, d⟩]) ∧
    (svc req = LocalResult.connRefused →
        onTunnelRequest svc req
          = [⟨500, [], Body.jsonError "Local service is not running"⟩]) ∧
    (∀ msg, svc req = LocalResult.failure msg →
        onTunnelRequest svc req = [⟨500, [], Body.jsonError msg⟩]) := by
  refine ⟨?_, ?_, ?_, ?_⟩
  · cases hsvc : svc req <;> simp [onTunnelRequest, handleTunnelRequest, hsvc]
  · intro s hdrs d hsvc
    simp [onTunnelRequest, handleTunnelRequest, hsvc]
  · intro hsvc
    simp [onTunnelRequest, handleTunnelRequest, hsvc]
  · intro msg hsvc
    simp [onTunnelRequest, handleTunnelRequest, hsvc]

/-- Claim C8 witness: against a local service that refuses connections, the
agent answers exactly once with the synthesized diagnostic 500. -/
theorem agent_always_answers_once_witness :
    onTunnelRequest svcRefused Relay.reqA
      = [⟨500, [], Body.jsonError "Local service is not running"⟩] :=
  (agent_always_answers_once svcRefused Relay.reqA).2.2.1 rfl

/-- Claim C9 counterexample: an established connection drops, the reconnect
timer fires, and the new handshake fails — the agent enters Disconnected (this
is not the first startup) yet no reconnect timer is armed, contradicting the
claim that every such entry arms one. -/
theorem handshake_failure_arms_no_timer :
    c9State.connState = ConnState.disconnected ∧
    c9State.armedTimers = [] ∧ c9State.reconnectField = some 0 := by decide

/-- Claim C9 as amended: in every reachable agent state at most one reconnect
timer is armed; every disconnect of an established connection leaves exactly
one timer armed; entering Connected cancels any pending timer; but a handshake
failure arms nothing (the client has no handler for it), so only disconnect
events — not handshake failures — schedule reconnection. -/
theorem reconnect_timer_discipline (st : AgentState) (h : AgentReachable st) :
    st.armedTimers.length ≤ 1 ∧
    (agentStep st AgentEvent.disconnectEvt).armedTimers.length = 1 ∧
    (agentStep st AgentEvent.connectOk).armedTimers = [] ∧
    (agentStep st AgentEvent.connectOk).connState = ConnState.connected ∧
    (agentStep st AgentEvent.connectFail).armedTimers = st.armedTimers := by
  have hInv := agentInv_reachable st h
  have hInv1 :
      AgentInv { st with connState := ConnState.disconnected, heartbeatOn := false } := by
    rcases hInv with h0 | ⟨t, ht, hf⟩
    · exact Or.inl h0
    · exact Or.inr ⟨t, ht, hf⟩
  refine ⟨?_, ?_, ?_, ?_, rfl⟩
  · rcases hInv with h0 | ⟨t, ht, _⟩
    · rw [h0]
      simp
    · rw [ht]
      simp
  · show (scheduleReconnect
        { st with connState := ConnState.disconnected, heartbeatOn := false }).armedTimers.length
        = 1
    rw [scheduleReconnect_armed _ hInv1]
    rfl
  · rw [agent_connectOk_clears st hInv]
  · rw [agent_connectOk_clears st hInv]

/-- Claim C9 amended witness: the discipline instantiated at the startup
state. -/
theorem reconnect_timer_discipline_witness :
    initAgent.armedTimers.length ≤ 1 ∧
    (agentStep initAgent AgentEvent.disconnectEvt).armedTimers.length = 1 ∧
    (agentStep initAgent AgentEvent.connectOk).armedTimers = [] ∧
    (agentStep initAgent AgentEvent.connectOk).connState = ConnState.connected ∧
    (agentStep initAgent AgentEvent.connectFail).armedTimers = initAgent.armedTimers :=
  reconnect_timer_discipline initAgent AgentReachable.init

end Client

namespace Auth

/-- Claim C10: with `JWT_SECRET` unset the verifier falls back to the literal
`'default-secret'` — the very secret the token generator falls back to — and
then accepts every well-formed (non-empty `clientId`), unexpired token of type
`'tunnel-client'` signed with that publicly known constant. -/
theorem default_secret_fallback_accepts (t : Token) (cid : String)
    (hsig : t.signedWith = "default-secret") (hexp : t.expired = false)
    (htype : t.payload.type = "tunnel-client") (hcid : t.payload.clientId ≠ "") :
    authMiddleware none (some t) = AuthResult.accepted t.payload.clientId ∧
    secretOrDefault none = "default-secret" ∧
    generateToken none cid false = ⟨⟨cid, "tunnel-client"⟩, "default-secret", false⟩ := by
  refine ⟨?_, rfl, rfl⟩
  simp [authMiddleware, verify, secretOrDefault, hsig, hexp, htype, hcid]

/-- Claim C10 witness: the sample fallback-signed token is accepted when the
environment provides no secret. -/
theorem default_secret_fallback_accepts_witness :
    authMiddleware none (some sampleToken) = AuthResult.accepted "client-abc" :=
  (default_secret_fallback_accepts sampleToken "any-client" rfl rfl rfl (by decide)).1

end Auth
end EasyTunnel
